import Mathlib

/-!
Verification of the Raft transport layer in
`src/meilisearch-http/src/raft/router.rs` (the `RaftRouter` connection
registry, its three `RaftNetwork` call operations, `add_client`, and
`Client::forward`), as a shallow embedding in Lean.

External effects — the bincode `serialize`/`deserialize` routines and the
tonic RPC channel — are supplied as explicit function parameters, and each
operation additionally returns the list of effect events it performed, in
order, so that claims about "no network I/O", "encode happens before the
lock is taken" and "vote logs on RPC failure" are statable.
-/

namespace RaftTransport

/-- NodeId (async_raft), a u64 peer identifier; modelled as Nat. -/
abbrev NodeId := Nat

/-- std::net::SocketAddr, opaque here; modelled by its display string. -/
abbrev SocketAddr := String

/-- tonic::transport::channel::Channel, opaque; modelled by the endpoint
string it was connected to. -/
abbrev Channel := String

/-- A byte string on the wire; bytes are Nats (well-formed ones are < 256). -/
abbrev Bytes := List Nat

/-- bincode::Error, opaque; carries only a display string here. -/
structure BincodeErr where
  str : String
deriving DecidableEq, Repr

/-- tonic::Status (the RPC-failure value); `str` is its `to_string()`. -/
structure Status where
  str : String
deriving DecidableEq, Repr

/-- tonic::transport::Error (dial-time connection failure), opaque. -/
structure TonicTransportErr where
  str : String
deriving DecidableEq, Repr

/-- anyhow::Error as it is actually populated by router.rs: either a plain
string message (`anyhow::Error::msg`, used for the client-not-found failure
and for RPC failures in the three RaftNetwork operations), or a propagated
source error of one of the dynamic types that occur (`bincode::Error` from
both serialize and deserialize, `tonic::Status` propagated by `?` in
`Client::forward`, `tonic::transport::Error` propagated in `add_client`). -/
inductive AnyhowError where
  | msg (s : String)
  | bincode (e : BincodeErr)
  | status (s : Status)
  | transport (e : TonicTransportErr)
deriving DecidableEq, Repr

/-- The four RPC methods of the raft_service wire contract. -/
inductive Method where
  | appendEntries
  | installSnapshot
  | vote
  | forward
deriving DecidableEq, Repr

/-- Observable effect events, in program order: a serialize attempt, the
acquisition of a peer entry's RwLock write lock, an RPC invocation on a
channel, a deserialize attempt, an `error!` log line, and a dial attempt
(`RaftServiceClient::connect`). -/
inductive Event where
  | encode
  | lockAcquire (target : NodeId)
  | rpcCall (m : Method) (ch : Channel)
  | decode
  | logError (s : String)
  | dial (endpoint : String)
deriving DecidableEq, Repr

/-- Client (router.rs): one RPC client handle plus its originating address. -/
structure Client where
  rpc_client : Channel
  addr : SocketAddr
deriving DecidableEq, Repr

/-- RaftRouter (router.rs): `clients: DashMap<NodeId, RwLock<Client>>`,
modelled as an association list with distinct keys; the per-entry RwLock is
modelled by the `lockAcquire` event. -/
structure RaftRouter where
  clients : List (NodeId × Client)
deriving DecidableEq, Repr

/-- DashMap::get, modelled as first-match lookup in the association list. -/
def lookupClient : List (NodeId × Client) → NodeId → Option Client
  | [], _ => none
  | (i, c) :: rest, id => if i = id then some c else lookupClient rest id

/-- RaftRouter::new (router.rs): starts with an empty clients map. -/
def RaftRouter.new : RaftRouter := { clients := [] }

/-- The external capabilities a call operation uses: bincode serialize for
the request type, the tonic channel call (one function per wire method,
selected by the `Method` tag), and bincode deserialize for the response
type. The network behaviour is an oracle: any outcome is allowed. -/
structure CallEnv (Req Resp : Type) where
  ser : Req → Except BincodeErr Bytes
  rpc : Method → Channel → Bytes → Except Status Bytes
  deser : Bytes → Except BincodeErr Resp

instance {ε α : Type} [DecidableEq ε] [DecidableEq α] : DecidableEq (Except ε α) := fun
  | .ok a, .ok b => if h : a = b then .isTrue (by rw [h]) else .isFalse (by simp [h])
  | .ok _, .error _ => .isFalse (by simp)
  | .error _, .ok _ => .isFalse (by simp)
  | .error a, .error b => if h : a = b then .isTrue (by rw [h]) else .isFalse (by simp [h])

/-- The outcome of a call operation: its returned value, the contents of the
clients map after the call, and the effect trace. -/
structure CallOut (Resp : Type) where
  result : Except AnyhowError Resp
  clients : List (NodeId × Client)
  trace : List Event
deriving DecidableEq, Repr

/-- The error value router.rs builds for an unregistered target:
`anyhow::Error::msg(format!("Client {} not found.", target))`. The spec
names this failure `TransportError::UnknownPeer`. -/
def unknownPeerError (target : NodeId) : AnyhowError :=
  .msg ("Client " ++ toString target ++ " not found.")

/-- RaftRouter::append_entries (router.rs lines 74-96): look `target` up in
the clients map; if absent fail with the not-found message; bincode-serialize
the request into the wire payload; acquire the entry's write lock; invoke the
`append_entries` RPC; on success deserialize the response (propagating a
deserialize failure), on RPC failure return the status rendered as a string
message. -/
def RaftRouter.append_entries (env : CallEnv Req Resp) (self : RaftRouter)
    (target : NodeId) (rpc : Req) : CallOut Resp :=
  match lookupClient self.clients target with
  | none =>
      { result := .error (.msg ("Client " ++ toString target ++ " not found.")),
        clients := self.clients, trace := [] }
  | some client =>
      match env.ser rpc with
      | .error e => { result := .error (.bincode e), clients := self.clients, trace := [.encode] }
      | .ok payload =>
          match env.rpc .appendEntries client.rpc_client payload with
          | .ok response =>
              match env.deser response with
              | .ok r =>
                  { result := .ok r, clients := self.clients,
                    trace := [.encode, .lockAcquire target,
                              .rpcCall .appendEntries client.rpc_client, .decode] }
              | .error e =>
                  { result := .error (.bincode e), clients := self.clients,
                    trace := [.encode, .lockAcquire target,
                              .rpcCall .appendEntries client.rpc_client, .decode] }
          | .error status =>
              { result := .error (.msg status.str), clients := self.clients,
                trace := [.encode, .lockAcquire target,
                          .rpcCall .appendEntries client.rpc_client] }

/-- RaftRouter::install_snapshot (router.rs lines 98-120): identical shape to
append_entries, invoking the `install_snapshot` RPC. -/
def RaftRouter.install_snapshot (env : CallEnv Req Resp) (self : RaftRouter)
    (target : NodeId) (rpc : Req) : CallOut Resp :=
  match lookupClient self.clients target with
  | none =>
      { result := .error (.msg ("Client " ++ toString target ++ " not found.")),
        clients := self.clients, trace := [] }
  | some client =>
      match env.ser rpc with
      | .error e => { result := .error (.bincode e), clients := self.clients, trace := [.encode] }
      | .ok payload =>
          match env.rpc .installSnapshot client.rpc_client payload with
          | .ok response =>
              match env.deser response with
              | .ok r =>
                  { result := .ok r, clients := self.clients,
                    trace := [.encode, .lockAcquire target,
                              .rpcCall .installSnapshot client.rpc_client, .decode] }
              | .error e =>
                  { result := .error (.bincode e), clients := self.clients,
                    trace := [.encode, .lockAcquire target,
                              .rpcCall .installSnapshot client.rpc_client, .decode] }
          | .error status =>
              { result := .error (.msg status.str), clients := self.clients,
                trace := [.encode, .lockAcquire target,
                          .rpcCall .installSnapshot client.rpc_client] }

/-- RaftRouter::vote (router.rs lines 122-143): identical shape to
append_entries, invoking the `vote` RPC, except that on RPC failure it first
logs `error!("error connecting to peer: {}", status.to_string())` and then
returns the same string-message error. -/
def RaftRouter.vote (env : CallEnv Req Resp) (self : RaftRouter)
    (target : NodeId) (rpc : Req) : CallOut Resp :=
  match lookupClient self.clients target with
  | none =>
      { result := .error (.msg ("Client " ++ toString target ++ " not found.")),
        clients := self.clients, trace := [] }
  | some client =>
      match env.ser rpc with
      | .error e => { result := .error (.bincode e), clients := self.clients, trace := [.encode] }
      | .ok payload =>
          match env.rpc .vote client.rpc_client payload with
          | .ok response =>
              match env.deser response with
              | .ok r =>
                  { result := .ok r, clients := self.clients,
                    trace := [.encode, .lockAcquire target,
                              .rpcCall .vote client.rpc_client, .decode] }
              | .error e =>
                  { result := .error (.bincode e), clients := self.clients,
                    trace := [.encode, .lockAcquire target,
                              .rpcCall .vote client.rpc_client, .decode] }
          | .error status =>
              { result := .error (.msg status.str), clients := self.clients,
                trace := [.encode, .lockAcquire target,
                          .rpcCall .vote client.rpc_client,
                          .logError ("error connecting to peer: " ++ status.str)] }

/-- Client::forward (router.rs lines 30-39): an operation on one Client (not
the registry): bincode-serialize the request, invoke the `forward` RPC on the
client's own channel (propagating a failing tonic::Status via `?` as a
wrapped status, not as a string message), deserialize the response. No
target lookup and no lock acquisition occur. -/
def Client.forward (ser : Req → Except BincodeErr Bytes)
    (rpc : Method → Channel → Bytes → Except Status Bytes)
    (deser : Bytes → Except BincodeErr Resp)
    (self : Client) (req : Req) : Except AnyhowError Resp × List Event :=
  match ser req with
  | .error e => (.error (.bincode e), [.encode])
  | .ok data =>
      match rpc .forward self.rpc_client data with
      | .error status => (.error (.status status), [.encode, .rpcCall .forward self.rpc_client])
      | .ok response =>
          match deser response with
          | .ok r => (.ok r, [.encode, .rpcCall .forward self.rpc_client, .decode])
          | .error e => (.error (.bincode e), [.encode, .rpcCall .forward self.rpc_client, .decode])

/-- RaftRouter::add_client (router.rs lines 52-64): DashMap entry API; on a
vacant entry dial `http://{addr}` (propagating a dial failure, in which case
nothing is inserted), and insert the new Client; on an occupied entry do
nothing and return Ok. -/
def RaftRouter.add_client (connect : String → Except TonicTransportErr Channel)
    (self : RaftRouter) (id : NodeId) (addr : SocketAddr) : CallOut Unit :=
  match lookupClient self.clients id with
  | some _ => { result := .ok (), clients := self.clients, trace := [] }
  | none =>
      match connect ("http://" ++ addr) with
      | .error e =>
          { result := .error (.transport e), clients := self.clients,
            trace := [.dial ("http://" ++ addr)] }
      | .ok ch =>
          { result := .ok (), clients := (id, { rpc_client := ch, addr := addr }) :: self.clients,
            trace := [.dial ("http://" ++ addr)] }

/-- The common shape of the three RaftNetwork call operations, abstracted
over the wire method invoked and whether an RPC failure is logged before
being returned (vote does, the other two do not). Used to state that the
three operations are the same function modulo these two parameters. -/
def callOp (method : Method) (logOnErr : Bool) (env : CallEnv Req Resp)
    (self : RaftRouter) (target : NodeId) (rpc : Req) : CallOut Resp :=
  match lookupClient self.clients target with
  | none =>
      { result := .error (.msg ("Client " ++ toString target ++ " not found.")),
        clients := self.clients, trace := [] }
  | some client =>
      match env.ser rpc with
      | .error e => { result := .error (.bincode e), clients := self.clients, trace := [.encode] }
      | .ok payload =>
          match env.rpc method client.rpc_client payload with
          | .ok response =>
              match env.deser response with
              | .ok r =>
                  { result := .ok r, clients := self.clients,
                    trace := [.encode, .lockAcquire target,
                              .rpcCall method client.rpc_client, .decode] }
              | .error e =>
                  { result := .error (.bincode e), clients := self.clients,
                    trace := [.encode, .lockAcquire target,
                              .rpcCall method client.rpc_client, .decode] }
          | .error status =>
              { result := .error (.msg status.str), clients := self.clients,
                trace := [.encode, .lockAcquire target, .rpcCall method client.rpc_client] ++
                  (if logOnErr then [.logError ("error connecting to peer: " ++ status.str)]
                   else []) }

/-- An environment at Nat request/response types in which every step
succeeds: serialization yields the singleton payload, the network echoes the
payload back, deserialization reads the head byte. Used to instantiate
hypotheses of proved theorems at concrete inputs. -/
def envOk : CallEnv Nat Nat :=
  { ser := fun n => .ok [n]
    rpc := fun _ _ b => .ok b
    deser := fun b => .ok (b.headD 0) }

/-- An environment whose network always fails with the given status. -/
def envRpcFail (s : String) : CallEnv Nat Nat :=
  { ser := fun n => .ok [n]
    rpc := fun _ _ _ => .error { str := s }
    deser := fun b => .ok (b.headD 0) }

/-- An environment whose serialization always fails. -/
def envSerFail : CallEnv Nat Nat :=
  { ser := fun _ => .error { str := "ser boom" }
    rpc := fun _ _ b => .ok b
    deser := fun b => .ok (b.headD 0) }

/-- An environment whose deserialization always fails. -/
def envDeserFail : CallEnv Nat Nat :=
  { ser := fun n => .ok [n]
    rpc := fun _ _ b => .ok b
    deser := fun _ => .error { str := "deser boom" } }

/-- A one-entry router used in concrete witnesses. -/
def router1 : RaftRouter :=
  { clients := [(5, { rpc_client := "http://10.0.0.1:9000", addr := "10.0.0.1:9000" })] }

/-! ## The codec

router.rs serializes the async_raft message types with `bincode::serialize`
and reads them back with `bincode::deserialize`. The concrete encoding
routine is an external crate (the spec treats it as a pluggable
serialize/deserialize capability), so it is modelled here at the byte level
following bincode's default format: fixed-width little-endian integers, a
u64 element count before sequences, a u32 variant index before enum
payloads, and a single tag byte for Option. Rust u64 fields become Nats,
with well-formedness predicates recording the 2^64 bounds that the Rust
types enforce by construction; HashSet fields become the list of elements in
their serialized order; the String field of EntrySnapshotPointer becomes its
UTF-8 byte list. -/

/-- Little-endian fixed-width write of `n` in `k` bytes. -/
def writeLE : Nat → Nat → Bytes
  | 0, _ => []
  | k + 1, n => n % 256 :: writeLE k (n / 256)

/-- Little-endian fixed-width read of `k` bytes. -/
def readLE : Nat → Bytes → Option (Nat × Bytes)
  | 0, bs => some (0, bs)
  | _ + 1, [] => none
  | k + 1, b :: bs =>
      match readLE k bs with
      | some (m, rest) => some (b + 256 * m, rest)
      | none => none

def writeU64 (n : Nat) : Bytes := writeLE 8 n

def readU64 (bs : Bytes) : Option (Nat × Bytes) := readLE 8 bs

def writeU32 (n : Nat) : Bytes := writeLE 4 n

def readU32 (bs : Bytes) : Option (Nat × Bytes) := readLE 4 bs

def writeByte (n : Nat) : Bytes := [n]

def readByte : Bytes → Option (Nat × Bytes)
  | b :: bs => some (b, bs)
  | [] => none

def writeBool (b : Bool) : Bytes := [if b then 1 else 0]

def readBool : Bytes → Option (Bool × Bytes)
  | b :: bs => if b = 0 then some (false, bs) else if b = 1 then some (true, bs) else none
  | [] => none

def writeOpt (w : α → Bytes) : Option α → Bytes
  | none => [0]
  | some x => 1 :: w x

def readOpt (rd : Bytes → Option (α × Bytes)) : Bytes → Option (Option α × Bytes)
  | b :: bs =>
      if b = 0 then some (none, bs)
      else if b = 1 then
        match rd bs with
        | some (x, rest) => some (some x, rest)
        | none => none
      else none
  | [] => none

def writeElems (w : α → Bytes) : List α → Bytes
  | [] => []
  | x :: xs => w x ++ writeElems w xs

/-- A bincode sequence: u64 element count, then the elements. -/
def writeSeq (w : α → Bytes) (l : List α) : Bytes :=
  writeU64 l.length ++ writeElems w l

def readElems (rd : Bytes → Option (α × Bytes)) : Nat → Bytes → Option (List α × Bytes)
  | 0, bs => some ([], bs)
  | k + 1, bs =>
      match rd bs with
      | some (x, rest) =>
          match readElems rd k rest with
          | some (xs, rest2) => some (x :: xs, rest2)
          | none => none
      | none => none

def readSeq (rd : Bytes → Option (α × Bytes)) (bs : Bytes) : Option (List α × Bytes) :=
  match readU64 bs with
  | some (n, rest) => readElems rd n rest
  | none => none

/-- Modelled from the spec: the application write-request type
(`ClientRequest`, defined in `raft/mod.rs`, which is not among the provided
sources); the spec treats it as an opaque serializable value, modelled as a
byte sequence. -/
structure ClientRequest where
  data : Bytes
deriving DecidableEq, Repr

/-- Modelled from the spec: the application response type (`ClientResponse`,
defined in `raft/mod.rs`, not among the provided sources), likewise an
opaque serializable value. -/
structure ClientResponse where
  data : Bytes
deriving DecidableEq, Repr

/-- async_raft::raft::MembershipConfig; the HashSet fields are modelled as
lists in their serialized order. -/
structure MembershipConfig where
  members : List Nat
  members_after_consensus : Option (List Nat)
deriving DecidableEq, Repr

/-- async_raft::raft::EntryNormal. -/
structure EntryNormal where
  data : ClientRequest
deriving DecidableEq, Repr

/-- async_raft::raft::EntryConfigChange. -/
structure EntryConfigChange where
  membership : MembershipConfig
deriving DecidableEq, Repr

/-- async_raft::raft::EntrySnapshotPointer; `id` is the String field as its
UTF-8 byte list. -/
structure EntrySnapshotPointer where
  id : Bytes
  membership : MembershipConfig
deriving DecidableEq, Repr

/-- async_raft::raft::EntryPayload. -/
inductive EntryPayload where
  | blank
  | normal (e : EntryNormal)
  | configChange (e : EntryConfigChange)
  | snapshotPointer (e : EntrySnapshotPointer)
deriving DecidableEq, Repr

/-- async_raft::raft::Entry. -/
structure Entry where
  term : Nat
  index : Nat
  payload : EntryPayload
deriving DecidableEq, Repr

/-- async_raft::raft::AppendEntriesRequest. -/
structure AppendEntriesRequest where
  term : Nat
  leader_id : Nat
  prev_log_index : Nat
  prev_log_term : Nat
  entries : List Entry
  leader_commit : Nat
deriving DecidableEq, Repr

/-- async_raft::raft::ConflictOpt. -/
structure ConflictOpt where
  term : Nat
  index : Nat
deriving DecidableEq, Repr

/-- async_raft::raft::AppendEntriesResponse. -/
structure AppendEntriesResponse where
  term : Nat
  success : Bool
  conflict_opt : Option ConflictOpt
deriving DecidableEq, Repr

/-- async_raft::raft::VoteRequest. -/
structure VoteRequest where
  term : Nat
  candidate_id : Nat
  last_log_index : Nat
  last_log_term : Nat
deriving DecidableEq, Repr

/-- async_raft::raft::VoteResponse. -/
structure VoteResponse where
  term : Nat
  vote_granted : Bool
deriving DecidableEq, Repr

/-- async_raft::raft::InstallSnapshotRequest. -/
structure InstallSnapshotRequest where
  term : Nat
  leader_id : Nat
  last_included_index : Nat
  last_included_term : Nat
  offset : Nat
  data : Bytes
  done : Bool
deriving DecidableEq, Repr

/-- async_raft::raft::InstallSnapshotResponse. -/
structure InstallSnapshotResponse where
  term : Nat
deriving DecidableEq, Repr

/-- async_raft::raft::ClientWriteRequest (its one field is the entry
payload to replicate). -/
structure ClientWriteRequest where
  entry : EntryPayload
deriving DecidableEq, Repr

/-! Encoders and decoders, bincode layout: struct fields in declaration
order, u32 variant index for enums, u64 length for sequences, one tag byte
for Option. Decoders return the value and the remaining bytes. -/

def encClientRequest (m : ClientRequest) : Bytes := writeSeq writeByte m.data

def decClientRequest (bs : Bytes) : Option (ClientRequest × Bytes) :=
  match readSeq readByte bs with
  | some (d, rest) => some ({ data := d }, rest)
  | none => none

def encClientResponse (m : ClientResponse) : Bytes := writeSeq writeByte m.data

def decClientResponse (bs : Bytes) : Option (ClientResponse × Bytes) :=
  match readSeq readByte bs with
  | some (d, rest) => some ({ data := d }, rest)
  | none => none

def encMembershipConfig (m : MembershipConfig) : Bytes :=
  writeSeq writeU64 m.members ++ writeOpt (writeSeq writeU64) m.members_after_consensus

def decMembershipConfig (bs : Bytes) : Option (MembershipConfig × Bytes) :=
  match readSeq readU64 bs with
  | some (ms, rest) =>
      match readOpt (readSeq readU64) rest with
      | some (mac, rest2) => some ({ members := ms, members_after_consensus := mac }, rest2)
      | none => none
  | none => none

def encEntryPayload : EntryPayload → Bytes
  | .blank => writeU32 0
  | .normal e => writeU32 1 ++ encClientRequest e.data
  | .configChange e => writeU32 2 ++ encMembershipConfig e.membership
  | .snapshotPointer e => writeU32 3 ++ writeSeq writeByte e.id ++ encMembershipConfig e.membership

def decEntryPayload (bs : Bytes) : Option (EntryPayload × Bytes) :=
  match readU32 bs with
  | some (tag, rest) =>
      if tag = 0 then some (.blank, rest)
      else if tag = 1 then
        match decClientRequest rest with
        | some (d, rest2) => some (.normal { data := d }, rest2)
        | none => none
      else if tag = 2 then
        match decMembershipConfig rest with
        | some (m, rest2) => some (.configChange { membership := m }, rest2)
        | none => none
      else if tag = 3 then
        match readSeq readByte rest with
        | some (i, rest2) =>
            match decMembershipConfig rest2 with
            | some (m, rest3) => some (.snapshotPointer { id := i, membership := m }, rest3)
            | none => none
        | none => none
      else none
  | none => none

def encEntry (e : Entry) : Bytes :=
  writeU64 e.term ++ writeU64 e.index ++ encEntryPayload e.payload

def decEntry (bs : Bytes) : Option (Entry × Bytes) :=
  match readU64 bs with
  | some (t, rest) =>
      match readU64 rest with
      | some (i, rest2) =>
          match decEntryPayload rest2 with
          | some (p, rest3) => some ({ term := t, index := i, payload := p }, rest3)
          | none => none
      | none => none
  | none => none

def encAppendEntriesRequest (m : AppendEntriesRequest) : Bytes :=
  writeU64 m.term ++ writeU64 m.leader_id ++ writeU64 m.prev_log_index ++
    writeU64 m.prev_log_term ++ writeSeq encEntry m.entries ++ writeU64 m.leader_commit

def decAppendEntriesRequest (bs : Bytes) : Option (AppendEntriesRequest × Bytes) :=
  match readU64 bs with
  | some (t, r1) =>
      match readU64 r1 with
      | some (lid, r2) =>
          match readU64 r2 with
          | some (pli, r3) =>
              match readU64 r3 with
              | some (plt, r4) =>
                  match readSeq decEntry r4 with
                  | some (es, r5) =>
                      match readU64 r5 with
                      | some (lc, r6) =>
                          some ({ term := t, leader_id := lid, prev_log_index := pli,
                                  prev_log_term := plt, entries := es, leader_commit := lc }, r6)
                      | none => none
                  | none => none
              | none => none
          | none => none
      | none => none
  | none => none

def encConflictOpt (m : ConflictOpt) : Bytes := writeU64 m.term ++ writeU64 m.index

def decConflictOpt (bs : Bytes) : Option (ConflictOpt × Bytes) :=
  match readU64 bs with
  | some (t, r1) =>
      match readU64 r1 with
      | some (i, r2) => some ({ term := t, index := i }, r2)
      | none => none
  | none => none

def encAppendEntriesResponse (m : AppendEntriesResponse) : Bytes :=
  writeU64 m.term ++ writeBool m.success ++ writeOpt encConflictOpt m.conflict_opt

def decAppendEntriesResponse (bs : Bytes) : Option (AppendEntriesResponse × Bytes) :=
  match readU64 bs with
  | some (t, r1) =>
      match readBool r1 with
      | some (s, r2) =>
          match readOpt decConflictOpt r2 with
          | some (c, r3) => some ({ term := t, success := s, conflict_opt := c }, r3)
          | none => none
      | none => none
  | none => none

def encVoteRequest (m : VoteRequest) : Bytes :=
  writeU64 m.term ++ writeU64 m.candidate_id ++ writeU64 m.last_log_index ++
    writeU64 m.last_log_term

def decVoteRequest (bs : Bytes) : Option (VoteRequest × Bytes) :=
  match readU64 bs with
  | some (t, r1) =>
      match readU64 r1 with
      | some (c, r2) =>
          match readU64 r2 with
          | some (lli, r3) =>
              match readU64 r3 with
              | some (llt, r4) =>
                  some ({ term := t, candidate_id := c, last_log_index := lli,
                          last_log_term := llt }, r4)
              | none => none
          | none => none
      | none => none
  | none => none

def encVoteResponse (m : VoteResponse) : Bytes :=
  writeU64 m.term ++ writeBool m.vote_granted

def decVoteResponse (bs : Bytes) : Option (VoteResponse × Bytes) :=
  match readU64 bs with
  | some (t, r1) =>
      match readBool r1 with
      | some (g, r2) => some ({ term := t, vote_granted := g }, r2)
      | none => none
  | none => none

def encInstallSnapshotRequest (m : InstallSnapshotRequest) : Bytes :=
  writeU64 m.term ++ writeU64 m.leader_id ++ writeU64 m.last_included_index ++
    writeU64 m.last_included_term ++ writeU64 m.offset ++ writeSeq writeByte m.data ++
    writeBool m.done

def decInstallSnapshotRequest (bs : Bytes) : Option (InstallSnapshotRequest × Bytes) :=
  match readU64 bs with
  | some (t, r1) =>
      match readU64 r1 with
      | some (lid, r2) =>
          match readU64 r2 with
          | some (lii, r3) =>
              match readU64 r3 with
              | some (lit, r4) =>
                  match readU64 r4 with
                  | some (off, r5) =>
                      match readSeq readByte r5 with
                      | some (d, r6) =>
                          match readBool r6 with
                          | some (dn, r7) =>
                              some ({ term := t, leader_id := lid, last_included_index := lii,
                                      last_included_term := lit, offset := off, data := d,
                                      done := dn }, r7)
                          | none => none
                      | none => none
                  | none => none
              | none => none
          | none => none
      | none => none
  | none => none

def encInstallSnapshotResponse (m : InstallSnapshotResponse) : Bytes := writeU64 m.term

def decInstallSnapshotResponse (bs : Bytes) : Option (InstallSnapshotResponse × Bytes) :=
  match readU64 bs with
  | some (t, r1) => some ({ term := t }, r1)
  | none => none

def encClientWriteRequest (m : ClientWriteRequest) : Bytes := encEntryPayload m.entry

def decClientWriteRequest (bs : Bytes) : Option (ClientWriteRequest × Bytes) :=
  match decEntryPayload bs with
  | some (p, rest) => some ({ entry := p }, rest)
  | none => none

/-! Well-formedness: the bounds every value of the corresponding Rust type
satisfies by construction (u64 fields and sequence lengths below 2^64,
bytes below 256). Bool-valued so that concrete instances evaluate. -/

def wfBytes (b : Bytes) : Bool :=
  decide (b.length < 2 ^ 64) && b.all fun x => decide (x < 256)

def wfU64 (n : Nat) : Bool := decide (n < 2 ^ 64)

def wfU64List (l : List Nat) : Bool :=
  decide (l.length < 2 ^ 64) && l.all fun x => decide (x < 2 ^ 64)

def ClientRequest.wf (m : ClientRequest) : Bool := wfBytes m.data

def ClientResponse.wf (m : ClientResponse) : Bool := wfBytes m.data

def MembershipConfig.wf (m : MembershipConfig) : Bool :=
  wfU64List m.members &&
    (match m.members_after_consensus with
     | none => true
     | some l => wfU64List l)

def EntryPayload.wf : EntryPayload → Bool
  | .blank => true
  | .normal e => e.data.wf
  | .configChange e => e.membership.wf
  | .snapshotPointer e => wfBytes e.id && e.membership.wf

def Entry.wf (e : Entry) : Bool := wfU64 e.term && wfU64 e.index && e.payload.wf

def AppendEntriesRequest.wf (m : AppendEntriesRequest) : Bool :=
  wfU64 m.term && wfU64 m.leader_id && wfU64 m.prev_log_index && wfU64 m.prev_log_term &&
    decide (m.entries.length < 2 ^ 64) && m.entries.all Entry.wf && wfU64 m.leader_commit

def ConflictOpt.wf (m : ConflictOpt) : Bool := wfU64 m.term && wfU64 m.index

def AppendEntriesResponse.wf (m : AppendEntriesResponse) : Bool :=
  wfU64 m.term &&
    (match m.conflict_opt with
     | none => true
     | some c => c.wf)

def VoteRequest.wf (m : VoteRequest) : Bool :=
  wfU64 m.term && wfU64 m.candidate_id && wfU64 m.last_log_index && wfU64 m.last_log_term

def VoteResponse.wf (m : VoteResponse) : Bool := wfU64 m.term

def InstallSnapshotRequest.wf (m : InstallSnapshotRequest) : Bool :=
  wfU64 m.term && wfU64 m.leader_id && wfU64 m.last_included_index &&
    wfU64 m.last_included_term && wfU64 m.offset && wfBytes m.data

def InstallSnapshotResponse.wf (m : InstallSnapshotResponse) : Bool := wfU64 m.term

def ClientWriteRequest.wf (m : ClientWriteRequest) : Bool := m.entry.wf

/-! The serialize/deserialize pairs as the router uses them:
`bincode::serialize` produces the byte vector, `bincode::deserialize` parses
a value from the front of the byte slice or fails with a bincode error. -/

def deserializeWith (dec : Bytes → Option (α × Bytes)) (bs : Bytes) : Except BincodeErr α :=
  match dec bs with
  | some (x, _) => .ok x
  | none => .error { str := "invalid encoding" }

/-! Remaining definitions used by the theorems: event classifiers, the
distinct-keys invariant of the clients map, and concrete values used to
instantiate proved theorems. -/

def Event.isLockAcquire : Event → Bool
  | .lockAcquire _ => true
  | _ => false

def Event.isRpcCall : Event → Bool
  | .rpcCall _ _ => true
  | _ => false

def Event.isLogError : Event → Bool
  | .logError _ => true
  | _ => false

/-- The DashMap key invariant: every NodeId occurs at most once. -/
def keysNodup (l : List (NodeId × Client)) : Prop := (l.map Prod.fst).Nodup

/-- A concrete AppendEntriesRequest exercising every entry-payload variant. -/
def aeReqEx : AppendEntriesRequest :=
  { term := 3, leader_id := 1, prev_log_index := 9, prev_log_term := 2,
    entries :=
      [ { term := 2, index := 10, payload := .blank },
        { term := 3, index := 11, payload := .normal { data := { data := [7, 255, 0] } } },
        { term := 3, index := 12,
          payload := .configChange
            { membership := { members := [1, 2, 3], members_after_consensus := some [1, 4] } } },
        { term := 3, index := 13,
          payload := .snapshotPointer
            { id := [115, 110, 97, 112],
              membership := { members := [1, 2], members_after_consensus := none } } } ],
    leader_commit := 9 }

def aeRespEx : AppendEntriesResponse :=
  { term := 3, success := false, conflict_opt := some { term := 2, index := 10 } }

def voteReqEx : VoteRequest :=
  { term := 5, candidate_id := 7, last_log_index := 11, last_log_term := 4 }

def voteRespEx : VoteResponse := { term := 5, vote_granted := false }

def isReqEx : InstallSnapshotRequest :=
  { term := 6, leader_id := 1, last_included_index := 42, last_included_term := 5,
    offset := 1024, data := [0, 1, 2, 254], done := true }

def isRespEx : InstallSnapshotResponse := { term := 6 }

def cwReqEx : ClientWriteRequest :=
  { entry := .normal { data := { data := [9, 8] } } }

def cRespEx : ClientResponse := { data := [1, 0, 1] }

end RaftTransport

/-! ## Theorems -/

namespace RaftTransport

theorem readLE_writeLE (k : Nat) : ∀ (n : Nat) (r : Bytes), n < 256 ^ k →
    readLE k (writeLE k n ++ r) = some (n, r) := by
  induction k with
  | zero =>
      intro n r h
      simp only [Nat.pow_zero, Nat.lt_one_iff] at h
      subst h
      rfl
  | succ k ih =>
      intro n r h
      have hdiv : n / 256 < 256 ^ k := by
        rw [Nat.div_lt_iff_lt_mul (by norm_num)]
        calc n < 256 ^ (k + 1) := h
          _ = 256 ^ k * 256 := by rw [pow_succ]
      simp only [writeLE, readLE, List.cons_append, List.append_eq, ih (n / 256) r hdiv]
      rw [Nat.mod_add_div]

theorem readU64_writeU64 (n : Nat) (r : Bytes) (h : n < 2 ^ 64) :
    readU64 (writeU64 n ++ r) = some (n, r) := by
  have h2 : n < 256 ^ 8 := by norm_num at h ⊢; exact h
  exact readLE_writeLE 8 n r h2

theorem readU32_writeU32 (n : Nat) (r : Bytes) (h : n < 2 ^ 32) :
    readU32 (writeU32 n ++ r) = some (n, r) := by
  have h2 : n < 256 ^ 4 := by norm_num at h ⊢; exact h
  exact readLE_writeLE 4 n r h2

theorem readByte_writeByte (n : Nat) (r : Bytes) :
    readByte (writeByte n ++ r) = some (n, r) := rfl

theorem readBool_writeBool (b : Bool) (r : Bytes) :
    readBool (writeBool b ++ r) = some (b, r) := by
  cases b <;> rfl

theorem readOpt_writeOpt {α : Type} (rd : Bytes → Option (α × Bytes)) (w : α → Bytes)
    (P : α → Prop) (hx : ∀ x r, P x → rd (w x ++ r) = some (x, r)) (o : Option α) (r : Bytes)
    (h : ∀ x ∈ o, P x) : readOpt rd (writeOpt w o ++ r) = some (o, r) := by
  cases o with
  | none => rfl
  | some x =>
      simp only [writeOpt, List.cons_append, readOpt]
      rw [hx x r (h x rfl)]
      norm_num

theorem readElems_writeElems {α : Type} (rd : Bytes → Option (α × Bytes)) (w : α → Bytes)
    (P : α → Prop) (hx : ∀ x r, P x → rd (w x ++ r) = some (x, r)) :
    ∀ (l : List α) (r : Bytes), (∀ x ∈ l, P x) →
      readElems rd l.length (writeElems w l ++ r) = some (l, r) := by
  intro l
  induction l with
  | nil => intro r _; rfl
  | cons x xs ih =>
      intro r h
      simp only [writeElems, List.length_cons, readElems, List.append_assoc, List.append_eq,
        hx x _ (h x (by simp)), ih r (fun y hy => h y (by simp [hy]))]

theorem readSeq_writeSeq {α : Type} (rd : Bytes → Option (α × Bytes)) (w : α → Bytes)
    (P : α → Prop) (hx : ∀ x r, P x → rd (w x ++ r) = some (x, r))
    (l : List α) (r : Bytes) (hl : l.length < 2 ^ 64) (hP : ∀ x ∈ l, P x) :
    readSeq rd (writeSeq w l ++ r) = some (l, r) := by
  simp only [writeSeq, readSeq, List.append_assoc]
  rw [readU64_writeU64 _ _ hl]
  exact readElems_writeElems rd w P hx l r hP

theorem readSeq_writeSeq_u64 (l : List Nat) (r : Bytes) (h : wfU64List l = true) :
    readSeq readU64 (writeSeq writeU64 l ++ r) = some (l, r) := by
  simp only [wfU64List, Bool.and_eq_true, decide_eq_true_eq, List.all_eq_true] at h
  exact readSeq_writeSeq readU64 writeU64 (fun n => n < 2 ^ 64) readU64_writeU64 l r h.1 h.2

theorem readSeq_writeSeq_bytes (b : Bytes) (r : Bytes) (h : b.length < 2 ^ 64) :
    readSeq readByte (writeSeq writeByte b ++ r) = some (b, r) :=
  readSeq_writeSeq readByte writeByte (fun _ => True) (fun x r _ => readByte_writeByte x r)
    b r h (fun _ _ => trivial)

theorem decClientRequest_enc (m : ClientRequest) (r : Bytes) (h : m.wf = true) :
    decClientRequest (encClientRequest m ++ r) = some (m, r) := by
  simp only [ClientRequest.wf, wfBytes, Bool.and_eq_true, decide_eq_true_eq] at h
  simp only [encClientRequest, decClientRequest, readSeq_writeSeq_bytes m.data r h.1]

theorem decClientResponse_enc (m : ClientResponse) (r : Bytes) (h : m.wf = true) :
    decClientResponse (encClientResponse m ++ r) = some (m, r) := by
  simp only [ClientResponse.wf, wfBytes, Bool.and_eq_true, decide_eq_true_eq] at h
  simp only [encClientResponse, decClientResponse, readSeq_writeSeq_bytes m.data r h.1]

theorem decMembershipConfig_enc (m : MembershipConfig) (r : Bytes) (h : m.wf = true) :
    decMembershipConfig (encMembershipConfig m ++ r) = some (m, r) := by
  simp only [MembershipConfig.wf, Bool.and_eq_true] at h
  have hmac : ∀ l ∈ m.members_after_consensus, wfU64List l = true := by
    intro l hl
    cases hm : m.members_after_consensus with
    | none => rw [hm] at hl; cases hl
    | some l2 =>
        rw [hm] at hl
        cases hl
        have := h.2
        rw [hm] at this
        exact this
  simp only [encMembershipConfig, decMembershipConfig, List.append_assoc,
    readSeq_writeSeq_u64 m.members _ h.1,
    readOpt_writeOpt (readSeq readU64) (writeSeq writeU64) (fun l => wfU64List l = true)
      (fun l r hl => readSeq_writeSeq_u64 l r hl) m.members_after_consensus r hmac]

set_option maxHeartbeats 1600000 in
theorem decEntryPayload_enc (p : EntryPayload) (r : Bytes) (h : p.wf = true) :
    decEntryPayload (encEntryPayload p ++ r) = some (p, r) := by
  cases p with
  | blank =>
      simp only [encEntryPayload, decEntryPayload,
        readU32_writeU32 0 r (by norm_num)]
      norm_num
  | normal e =>
      simp only [EntryPayload.wf] at h
      simp only [encEntryPayload, decEntryPayload, List.append_assoc,
        readU32_writeU32 1 _ (by norm_num), decClientRequest_enc e.data r h]
      norm_num
  | configChange e =>
      simp only [EntryPayload.wf] at h
      simp only [encEntryPayload, decEntryPayload, List.append_assoc,
        readU32_writeU32 2 _ (by norm_num), decMembershipConfig_enc e.membership r h]
      norm_num
  | snapshotPointer e =>
      simp only [EntryPayload.wf, wfBytes, Bool.and_eq_true, decide_eq_true_eq] at h
      simp only [encEntryPayload, decEntryPayload, List.append_assoc,
        readU32_writeU32 3 _ (by norm_num), readSeq_writeSeq_bytes e.id _ h.1.1,
        decMembershipConfig_enc e.membership r h.2]
      norm_num

theorem decEntry_enc (e : Entry) (r : Bytes) (h : e.wf = true) :
    decEntry (encEntry e ++ r) = some (e, r) := by
  simp only [Entry.wf, Bool.and_eq_true, wfU64, decide_eq_true_eq] at h
  simp only [encEntry, decEntry, List.append_assoc,
    readU64_writeU64 e.term _ h.1.1, readU64_writeU64 e.index _ h.1.2,
    decEntryPayload_enc e.payload r h.2]

theorem readSeq_entries (l : List Entry) (r : Bytes) (hl : l.length < 2 ^ 64)
    (h : l.all Entry.wf = true) : readSeq decEntry (writeSeq encEntry l ++ r) = some (l, r) := by
  simp only [List.all_eq_true] at h
  exact readSeq_writeSeq decEntry encEntry (fun e => e.wf = true) decEntry_enc l r hl h

theorem decAppendEntriesRequest_enc (m : AppendEntriesRequest) (r : Bytes) (h : m.wf = true) :
    decAppendEntriesRequest (encAppendEntriesRequest m ++ r) = some (m, r) := by
  simp only [AppendEntriesRequest.wf, Bool.and_eq_true, wfU64, decide_eq_true_eq] at h
  obtain ⟨⟨⟨⟨⟨⟨h1, h2⟩, h3⟩, h4⟩, h5⟩, h6⟩, h7⟩ := h
  simp only [encAppendEntriesRequest, decAppendEntriesRequest, List.append_assoc,
    readU64_writeU64 m.term _ h1, readU64_writeU64 m.leader_id _ h2,
    readU64_writeU64 m.prev_log_index _ h3, readU64_writeU64 m.prev_log_term _ h4,
    readSeq_entries m.entries _ h5 h6, readU64_writeU64 m.leader_commit r h7]

theorem decConflictOpt_enc (m : ConflictOpt) (r : Bytes) (h : m.wf = true) :
    decConflictOpt (encConflictOpt m ++ r) = some (m, r) := by
  simp only [ConflictOpt.wf, Bool.and_eq_true, wfU64, decide_eq_true_eq] at h
  simp only [encConflictOpt, decConflictOpt, List.append_assoc,
    readU64_writeU64 m.term _ h.1, readU64_writeU64 m.index r h.2]

theorem decAppendEntriesResponse_enc (m : AppendEntriesResponse) (r : Bytes) (h : m.wf = true) :
    decAppendEntriesResponse (encAppendEntriesResponse m ++ r) = some (m, r) := by
  simp only [AppendEntriesResponse.wf, Bool.and_eq_true, wfU64, decide_eq_true_eq] at h
  have hc : ∀ c ∈ m.conflict_opt, c.wf = true := by
    intro c hc
    cases hm : m.conflict_opt with
    | none => rw [hm] at hc; cases hc
    | some c2 =>
        rw [hm] at hc
        cases hc
        have := h.2
        rw [hm] at this
        exact this
  simp only [encAppendEntriesResponse, decAppendEntriesResponse, List.append_assoc,
    readU64_writeU64 m.term _ h.1, readBool_writeBool m.success,
    readOpt_writeOpt decConflictOpt encConflictOpt (fun c => c.wf = true)
      (fun c r hcw => decConflictOpt_enc c r hcw) m.conflict_opt r hc]

theorem decVoteRequest_enc (m : VoteRequest) (r : Bytes) (h : m.wf = true) :
    decVoteRequest (encVoteRequest m ++ r) = some (m, r) := by
  simp only [VoteRequest.wf, Bool.and_eq_true, wfU64, decide_eq_true_eq] at h
  obtain ⟨⟨⟨h1, h2⟩, h3⟩, h4⟩ := h
  simp only [encVoteRequest, decVoteRequest, List.append_assoc,
    readU64_writeU64 m.term _ h1, readU64_writeU64 m.candidate_id _ h2,
    readU64_writeU64 m.last_log_index _ h3, readU64_writeU64 m.last_log_term r h4]

theorem decVoteResponse_enc (m : VoteResponse) (r : Bytes) (h : m.wf = true) :
    decVoteResponse (encVoteResponse m ++ r) = some (m, r) := by
  simp only [VoteResponse.wf, wfU64, decide_eq_true_eq] at h
  simp only [encVoteResponse, decVoteResponse, List.append_assoc,
    readU64_writeU64 m.term _ h, readBool_writeBool m.vote_granted r]

theorem decInstallSnapshotRequest_enc (m : InstallSnapshotRequest) (r : Bytes)
    (h : m.wf = true) :
    decInstallSnapshotRequest (encInstallSnapshotRequest m ++ r) = some (m, r) := by
  simp only [InstallSnapshotRequest.wf, Bool.and_eq_true, wfU64, wfBytes,
    decide_eq_true_eq] at h
  obtain ⟨⟨⟨⟨⟨h1, h2⟩, h3⟩, h4⟩, h5⟩, h6, _⟩ := h
  simp only [encInstallSnapshotRequest, decInstallSnapshotRequest, List.append_assoc,
    readU64_writeU64 m.term _ h1, readU64_writeU64 m.leader_id _ h2,
    readU64_writeU64 m.last_included_index _ h3, readU64_writeU64 m.last_included_term _ h4,
    readU64_writeU64 m.offset _ h5, readSeq_writeSeq_bytes m.data _ h6,
    readBool_writeBool m.done r]

theorem decInstallSnapshotResponse_enc (m : InstallSnapshotResponse) (r : Bytes)
    (h : m.wf = true) :
    decInstallSnapshotResponse (encInstallSnapshotResponse m ++ r) = some (m, r) := by
  simp only [InstallSnapshotResponse.wf, wfU64, decide_eq_true_eq] at h
  simp only [encInstallSnapshotResponse, decInstallSnapshotResponse,
    readU64_writeU64 m.term r h]

theorem decClientWriteRequest_enc (m : ClientWriteRequest) (r : Bytes) (h : m.wf = true) :
    decClientWriteRequest (encClientWriteRequest m ++ r) = some (m, r) := by
  simp only [encClientWriteRequest, decClientWriteRequest,
    decEntryPayload_enc m.entry r h]

theorem deserializeWith_enc {α : Type} (dec : Bytes → Option (α × Bytes)) (enc : α → Bytes)
    (m : α) (h : dec (enc m ++ []) = some (m, [])) : deserializeWith dec (enc m) = .ok m := by
  have h2 : dec (enc m) = some (m, []) := by
    rw [← List.append_nil (enc m)]
    exact h
  simp only [deserializeWith, h2]

theorem lookupClient_none_not_mem (l : List (NodeId × Client)) (id : NodeId)
    (h : lookupClient l id = none) : id ∉ l.map Prod.fst := by
  induction l with
  | nil => simp
  | cons p rest ih =>
      obtain ⟨i, c⟩ := p
      simp only [lookupClient] at h
      by_cases hp : i = id
      · rw [if_pos hp] at h
        cases h
      · rw [if_neg hp] at h
        simp only [List.map_cons, List.mem_cons]
        rintro (rfl | hm)
        · exact hp rfl
        · exact ih h hm

/-- C1: for every target that has no entry in the clients map, each of the
three registry call operations returns the unknown-peer error immediately,
with an empty effect trace — no encoding and no RPC are performed — and the
clients map is untouched. -/
theorem c1_unknown_peer_fails_fast {Req Resp : Type} (env : CallEnv Req Resp)
    (self : RaftRouter) (target : NodeId) (req : Req)
    (h : lookupClient self.clients target = none) :
    RaftRouter.append_entries env self target req =
      { result := .error (unknownPeerError target), clients := self.clients, trace := [] } ∧
    RaftRouter.install_snapshot env self target req =
      { result := .error (unknownPeerError target), clients := self.clients, trace := [] } ∧
    RaftRouter.vote env self target req =
      { result := .error (unknownPeerError target), clients := self.clients, trace := [] } := by
  refine ⟨?_, ?_, ?_⟩ <;>
    simp [RaftRouter.append_entries, RaftRouter.install_snapshot, RaftRouter.vote, h,
      unknownPeerError]

/-- C1 witness: node 5 was never added to a fresh router, and a concrete
append_entries and vote against it fail fast with the unknown-peer error. -/
theorem c1_witness :
    lookupClient RaftRouter.new.clients 5 = none ∧
    RaftRouter.append_entries envOk RaftRouter.new 5 7 =
      { result := .error (unknownPeerError 5), clients := [], trace := [] } ∧
    RaftRouter.vote envOk RaftRouter.new 5 7 =
      { result := .error (unknownPeerError 5), clients := [], trace := [] } :=
  ⟨rfl, (c1_unknown_peer_fails_fast envOk RaftRouter.new 5 7 rfl).1,
    (c1_unknown_peer_fails_fast envOk RaftRouter.new 5 7 rfl).2.2⟩

/-- C2: when the dial fails during add_client on an absent id, the connect
error is returned and the clients map is unchanged (nothing inserted), a
subsequent vote for that id still returns the unknown-peer error, and a
subsequent add_client for the same id performs the dial again. -/
theorem c2_connect_failure_inserts_nothing {Req Resp : Type}
    (connect : String → Except TonicTransportErr Channel) (self : RaftRouter)
    (id : NodeId) (addr : SocketAddr) (e : TonicTransportErr)
    (h1 : lookupClient self.clients id = none)
    (h2 : connect ("http://" ++ addr) = .error e) :
    RaftRouter.add_client connect self id addr =
      { result := .error (.transport e), clients := self.clients,
        trace := [.dial ("http://" ++ addr)] } ∧
    (∀ (env : CallEnv Req Resp) (req : Req),
      (RaftRouter.vote env
          { clients := (RaftRouter.add_client connect self id addr).clients } id req).result =
        .error (unknownPeerError id)) ∧
    (RaftRouter.add_client connect
        { clients := (RaftRouter.add_client connect self id addr).clients } id addr).trace =
      [.dial ("http://" ++ addr)] := by
  have hadd : RaftRouter.add_client connect self id addr =
      { result := .error (.transport e), clients := self.clients,
        trace := [.dial ("http://" ++ addr)] } := by
    simp [RaftRouter.add_client, h1, h2]
  refine ⟨hadd, ?_, ?_⟩
  · intro env req
    rw [hadd]
    simp [RaftRouter.vote, h1, unknownPeerError]
  · rw [hadd]
    simp [RaftRouter.add_client, h1, h2]

/-- C2 witness: dialing an unreachable address on a fresh router returns the
connect error, inserts nothing, and the follow-up vote is unknown-peer. -/
theorem c2_witness :
    lookupClient RaftRouter.new.clients 1 = none ∧
    (fun _ => .error { str := "connection refused" } :
        String → Except TonicTransportErr Channel) ("http://" ++ "10.0.0.1:9000") =
      .error { str := "connection refused" } ∧
    RaftRouter.add_client (fun _ => .error { str := "connection refused" })
        RaftRouter.new 1 "10.0.0.1:9000" =
      { result := .error (.transport { str := "connection refused" }), clients := [],
        trace := [.dial ("http://" ++ "10.0.0.1:9000")] } ∧
    (RaftRouter.vote envOk
        { clients := (RaftRouter.add_client (fun _ => .error { str := "connection refused" })
            RaftRouter.new 1 "10.0.0.1:9000").clients } 1 3).result =
      .error (unknownPeerError 1) :=
  ⟨rfl, rfl,
    (@c2_connect_failure_inserts_nothing Nat Nat (fun _ => .error { str := "connection refused" })
      RaftRouter.new 1 "10.0.0.1:9000" { str := "connection refused" } rfl rfl).1,
    (@c2_connect_failure_inserts_nothing Nat Nat (fun _ => .error { str := "connection refused" })
      RaftRouter.new 1 "10.0.0.1:9000" { str := "connection refused" } rfl rfl).2.1 envOk 3⟩

/-- C3: add_client is idempotent and preserves the at-most-one-entry
invariant: on an id that already has an entry it returns success with the
map unchanged (the new address is ignored, the existing entry is kept) and
performs no dial, so no second connection is ever created; and for every
call, distinctness of the keys of the clients map is preserved. -/
theorem c3_add_client_idempotent
    (connect : String → Except TonicTransportErr Channel) (self : RaftRouter)
    (id : NodeId) (addr : SocketAddr) (c : Client)
    (h : lookupClient self.clients id = some c) :
    RaftRouter.add_client connect self id addr =
      { result := .ok (), clients := self.clients, trace := [] } ∧
    (∀ (connect2 : String → Except TonicTransportErr Channel) (self2 : RaftRouter)
       (id2 : NodeId) (addr2 : SocketAddr), keysNodup self2.clients →
       keysNodup (RaftRouter.add_client connect2 self2 id2 addr2).clients) := by
  constructor
  · simp [RaftRouter.add_client, h]
  · intro connect2 self2 id2 addr2 hnd
    unfold RaftRouter.add_client
    cases h2 : lookupClient self2.clients id2 with
    | some _ => exact hnd
    | none =>
        cases connect2 ("http://" ++ addr2) with
        | error e => exact hnd
        | ok ch =>
            simp only [keysNodup, List.map_cons, List.nodup_cons]
            exact ⟨lookupClient_none_not_mem self2.clients id2 h2, hnd⟩

/-- C3 witness: adding node 5 again with a different address on a router
that already has it succeeds, changes nothing, dials nothing; and key
distinctness is preserved on a concrete insertion. -/
theorem c3_witness :
    lookupClient router1.clients 5 =
      some { rpc_client := "http://10.0.0.1:9000", addr := "10.0.0.1:9000" } ∧
    RaftRouter.add_client (fun s => .ok s) router1 5 "10.9.9.9:1234" =
      { result := .ok (), clients := router1.clients, trace := [] } ∧
    keysNodup (RaftRouter.add_client (fun s => .ok s) router1 8 "10.0.0.8:9000").clients :=
  ⟨rfl,
    (c3_add_client_idempotent (fun s => .ok s) router1 5 "10.9.9.9:1234"
      { rpc_client := "http://10.0.0.1:9000", addr := "10.0.0.1:9000" } rfl).1,
    (c3_add_client_idempotent (fun s => .ok s) router1 5 "10.9.9.9:1234"
      { rpc_client := "http://10.0.0.1:9000", addr := "10.0.0.1:9000" } rfl).2
      (fun s => .ok s) router1 8 "10.0.0.8:9000" (by simp [keysNodup, router1])⟩

/-- C4 counterexample: a complete successful run of Client::forward at a
concrete input has trace exactly [encode, rpc, decode]: it acquires no
per-peer lock (zero lockAcquire events) and performs no registry lookup
(the function does not even take a registry or a target PeerId, and it
succeeds although no peer was ever added) — refuting the claim that
forward_write follows the registry algorithm of looking up a target,
failing with UnknownPeer when absent, and acquiring the peer's lock. -/
theorem c4_counterexample :
    Client.forward envOk.ser envOk.rpc envOk.deser
        { rpc_client := "http://10.0.0.2:9000", addr := "10.0.0.2:9000" } 7 =
      (.ok 7, [.encode, .rpcCall .forward "http://10.0.0.2:9000", .decode]) ∧
    (Client.forward envOk.ser envOk.rpc envOk.deser
        { rpc_client := "http://10.0.0.2:9000", addr := "10.0.0.2:9000" } 7).2.countP
      Event.isLockAcquire = 0 :=
  ⟨rfl, rfl⟩

/-- C4 amended: Client::forward is a connection-level operation, not a
registry-level one: it takes a Client rather than a target PeerId, never
acquires a per-peer lock, performs exactly one RPC when encoding succeeds
and none when it fails, never returns the string-message error used for
unknown peers (its failures are wrapped bincode or status values), and
otherwise follows the same encode, single RPC, decode shape as the three
registry operations. -/
theorem c4_forward_is_client_level {Req Resp : Type} (ser : Req → Except BincodeErr Bytes)
    (rpc : Method → Channel → Bytes → Except Status Bytes)
    (deser : Bytes → Except BincodeErr Resp) (client : Client) (req : Req) :
    (Client.forward ser rpc deser client req).2.countP Event.isLockAcquire = 0 ∧
    (Client.forward ser rpc deser client req).2.countP Event.isRpcCall =
      (match ser req with | .ok _ => 1 | .error _ => 0) ∧
    (∀ s, (Client.forward ser rpc deser client req).1 ≠ .error (.msg s)) ∧
    (∀ payload resp r, ser req = .ok payload → rpc .forward client.rpc_client payload = .ok resp →
      deser resp = .ok r →
      Client.forward ser rpc deser client req =
        (.ok r, [.encode, .rpcCall .forward client.rpc_client, .decode])) := by
  refine ⟨?_, ?_, ?_, ?_⟩
  · cases hs : ser req with
    | error e => simp [Client.forward, hs, List.countP_cons, Event.isLockAcquire]
    | ok payload =>
        cases hr : rpc .forward client.rpc_client payload with
        | error st =>
            simp [Client.forward, hs, hr, List.countP_cons, Event.isLockAcquire]
        | ok resp =>
            cases hd : deser resp <;>
              simp [Client.forward, hs, hr, hd, List.countP_cons, Event.isLockAcquire]
  · cases hs : ser req with
    | error e => simp [Client.forward, hs, List.countP_cons, Event.isRpcCall]
    | ok payload =>
        cases hr : rpc .forward client.rpc_client payload with
        | error st =>
            simp [Client.forward, hs, hr, List.countP_cons, Event.isRpcCall]
        | ok resp =>
            cases hd : deser resp <;>
              simp [Client.forward, hs, hr, hd, List.countP_cons, Event.isRpcCall]
  · intro s
    cases hs : ser req with
    | error e => simp [Client.forward, hs]
    | ok payload =>
        cases hr : rpc .forward client.rpc_client payload with
        | error st => simp [Client.forward, hs, hr]
        | ok resp => cases hd : deser resp <;> simp [Client.forward, hs, hr, hd]
  · intro payload resp r h1 h2 h3
    simp [Client.forward, h1, h2, h3]

/-- C4 amended witness: the amended statement instantiated at the concrete
successful run used in the counterexample's scenario shape. -/
theorem c4_witness :
    envOk.ser 7 = .ok [7] ∧
    envOk.rpc .forward "http://10.0.0.2:9000" [7] = .ok [7] ∧
    envOk.deser [7] = .ok 7 ∧
    Client.forward envOk.ser envOk.rpc envOk.deser
        { rpc_client := "http://10.0.0.2:9000", addr := "10.0.0.2:9000" } 7 =
      (.ok 7, [.encode, .rpcCall .forward "http://10.0.0.2:9000", .decode]) :=
  ⟨rfl, rfl, rfl,
    (c4_forward_is_client_level envOk.ser envOk.rpc envOk.deser
      { rpc_client := "http://10.0.0.2:9000", addr := "10.0.0.2:9000" } 7).2.2.2
      [7] [7] 7 rfl rfl rfl⟩

/-- C5 counterexample: the failure kinds are not distinguishable: at
concrete inputs, an RPC failure on a *registered* peer (remote status whose
display string happens to be "Client 5 not found.") yields the very same
error value as the unknown-peer failure on an *empty* registry — so the
caller cannot tell TransportError::Rpc from TransportError::UnknownPeer, and
the code does not surface four distinguishable typed kinds. -/
theorem c5_counterexample :
    (RaftRouter.vote (envRpcFail "Client 5 not found.") router1 5 1).result =
      .error (.msg "Client 5 not found.") ∧
    (RaftRouter.vote envOk RaftRouter.new 5 1).result =
      .error (.msg "Client 5 not found.") ∧
    (RaftRouter.vote (envRpcFail "Client 5 not found.") router1 5 1).result =
      (RaftRouter.vote envOk RaftRouter.new 5 1).result :=
  ⟨rfl, rfl, rfl⟩

/-- C5 amended: failures surfaced by the three call operations come in only
two representational kinds of anyhow error: plain string messages (used for
both the unknown-peer failure and RPC failures, distinguishable only by
their text, and in general not distinguishable at all) and wrapped bincode
errors (used for both encode and decode failures); there is no four-variant
typed TransportError. The decode-failure-of-a-successful-RPC path does
yield a wrapped bincode error while the RPC-failure path yields a string
message, so those two specific paths are distinguishable. -/
theorem c5_error_surface {Req Resp : Type} (env : CallEnv Req Resp) (self : RaftRouter)
    (target : NodeId) (req : Req) :
    (∀ e, (RaftRouter.append_entries env self target req).result = .error e →
      (∃ s, e = .msg s) ∨ (∃ b, e = .bincode b)) ∧
    (∀ e, (RaftRouter.install_snapshot env self target req).result = .error e →
      (∃ s, e = .msg s) ∨ (∃ b, e = .bincode b)) ∧
    (∀ e, (RaftRouter.vote env self target req).result = .error e →
      (∃ s, e = .msg s) ∨ (∃ b, e = .bincode b)) ∧
    (∀ c payload st, lookupClient self.clients target = some c → env.ser req = .ok payload →
      env.rpc .vote c.rpc_client payload = .error st →
      (RaftRouter.vote env self target req).result = .error (.msg st.str)) ∧
    (∀ c payload resp b, lookupClient self.clients target = some c →
      env.ser req = .ok payload → env.rpc .vote c.rpc_client payload = .ok resp →
      env.deser resp = .error b →
      (RaftRouter.vote env self target req).result = .error (.bincode b)) := by
  refine ⟨?_, ?_, ?_, ?_, ?_⟩
  · intro e
    cases hl : lookupClient self.clients target with
    | none => simp [RaftRouter.append_entries, hl]; rintro rfl; exact .inl ⟨_, rfl⟩
    | some c =>
        cases hs : env.ser req with
        | error e2 =>
            simp [RaftRouter.append_entries, hl, hs]; rintro rfl; exact .inr ⟨_, rfl⟩
        | ok payload =>
            cases hr : env.rpc .appendEntries c.rpc_client payload with
            | error st =>
                simp [RaftRouter.append_entries, hl, hs, hr]; rintro rfl; exact .inl ⟨_, rfl⟩
            | ok resp =>
                cases hd : env.deser resp with
                | ok r => simp [RaftRouter.append_entries, hl, hs, hr, hd]
                | error e2 =>
                    simp [RaftRouter.append_entries, hl, hs, hr, hd]; rintro rfl
                    exact .inr ⟨_, rfl⟩
  · intro e
    cases hl : lookupClient self.clients target with
    | none => simp [RaftRouter.install_snapshot, hl]; rintro rfl; exact .inl ⟨_, rfl⟩
    | some c =>
        cases hs : env.ser req with
        | error e2 =>
            simp [RaftRouter.install_snapshot, hl, hs]; rintro rfl; exact .inr ⟨_, rfl⟩
        | ok payload =>
            cases hr : env.rpc .installSnapshot c.rpc_client payload with
            | error st =>
                simp [RaftRouter.install_snapshot, hl, hs, hr]; rintro rfl; exact .inl ⟨_, rfl⟩
            | ok resp =>
                cases hd : env.deser resp with
                | ok r => simp [RaftRouter.install_snapshot, hl, hs, hr, hd]
                | error e2 =>
                    simp [RaftRouter.install_snapshot, hl, hs, hr, hd]; rintro rfl
                    exact .inr ⟨_, rfl⟩
  · intro e
    cases hl : lookupClient self.clients target with
    | none => simp [RaftRouter.vote, hl]; rintro rfl; exact .inl ⟨_, rfl⟩
    | some c =>
        cases hs : env.ser req with
        | error e2 => simp [RaftRouter.vote, hl, hs]; rintro rfl; exact .inr ⟨_, rfl⟩
        | ok payload =>
            cases hr : env.rpc .vote c.rpc_client payload with
            | error st =>
                simp [RaftRouter.vote, hl, hs, hr]; rintro rfl; exact .inl ⟨_, rfl⟩
            | ok resp =>
                cases hd : env.deser resp with
                | ok r => simp [RaftRouter.vote, hl, hs, hr, hd]
                | error e2 =>
                    simp [RaftRouter.vote, hl, hs, hr, hd]; rintro rfl
                    exact .inr ⟨_, rfl⟩
  · intro c payload st h1 h2 h3
    simp [RaftRouter.vote, h1, h2, h3]
  · intro c payload resp b h1 h2 h3 h4
    simp [RaftRouter.vote, h1, h2, h3, h4]

/-- C5 amended witness: at concrete inputs against a registered peer, an
RPC failure surfaces as a string message and a decode failure as a wrapped
bincode error. -/
theorem c5_witness :
    lookupClient router1.clients 5 =
      some { rpc_client := "http://10.0.0.1:9000", addr := "10.0.0.1:9000" } ∧
    (RaftRouter.vote (envRpcFail "boom") router1 5 1).result = .error (.msg "boom") ∧
    (RaftRouter.vote envDeserFail router1 5 1).result =
      .error (.bincode { str := "deser boom" }) :=
  ⟨rfl,
    (c5_error_surface (envRpcFail "boom") router1 5 1).2.2.2.1
      { rpc_client := "http://10.0.0.1:9000", addr := "10.0.0.1:9000" } [1]
      { str := "boom" } rfl rfl rfl,
    (c5_error_surface envDeserFail router1 5 1).2.2.2.2
      { rpc_client := "http://10.0.0.1:9000", addr := "10.0.0.1:9000" } [1] [1]
      { str := "deser boom" } rfl rfl rfl rfl⟩

/-- C6: no call operation ever modifies the clients map (so after an RPC
failure the target's entry is still present, unchanged), and a later call on
the same peer with a working network and codec succeeds using that entry. -/
theorem c6_failed_rpc_preserves_registry {Req Resp : Type} (env : CallEnv Req Resp)
    (self : RaftRouter) (target : NodeId) (req : Req) :
    (RaftRouter.append_entries env self target req).clients = self.clients ∧
    (RaftRouter.install_snapshot env self target req).clients = self.clients ∧
    (RaftRouter.vote env self target req).clients = self.clients ∧
    (∀ c, lookupClient self.clients target = some c →
      lookupClient (RaftRouter.append_entries env self target req).clients target = some c) ∧
    (∀ (env2 : CallEnv Req Resp) (req2 : Req) (c : Client) (payload resp : Bytes) (r2 : Resp),
      lookupClient self.clients target = some c →
      env2.ser req2 = .ok payload →
      env2.rpc .appendEntries c.rpc_client payload = .ok resp →
      env2.deser resp = .ok r2 →
      (RaftRouter.append_entries env2
          { clients := (RaftRouter.append_entries env self target req).clients }
          target req2).result = .ok r2) := by
  have hae : (RaftRouter.append_entries env self target req).clients = self.clients := by
    cases hl : lookupClient self.clients target with
    | none => simp [RaftRouter.append_entries, hl]
    | some c =>
        cases hs : env.ser req with
        | error e => simp [RaftRouter.append_entries, hl, hs]
        | ok payload =>
            cases hr : env.rpc .appendEntries c.rpc_client payload with
            | error st => simp [RaftRouter.append_entries, hl, hs, hr]
            | ok resp =>
                cases hd : env.deser resp <;>
                  simp [RaftRouter.append_entries, hl, hs, hr, hd]
  have his : (RaftRouter.install_snapshot env self target req).clients = self.clients := by
    cases hl : lookupClient self.clients target with
    | none => simp [RaftRouter.install_snapshot, hl]
    | some c =>
        cases hs : env.ser req with
        | error e => simp [RaftRouter.install_snapshot, hl, hs]
        | ok payload =>
            cases hr : env.rpc .installSnapshot c.rpc_client payload with
            | error st => simp [RaftRouter.install_snapshot, hl, hs, hr]
            | ok resp =>
                cases hd : env.deser resp <;>
                  simp [RaftRouter.install_snapshot, hl, hs, hr, hd]
  have hv : (RaftRouter.vote env self target req).clients = self.clients := by
    cases hl : lookupClient self.clients target with
    | none => simp [RaftRouter.vote, hl]
    | some c =>
        cases hs : env.ser req with
        | error e => simp [RaftRouter.vote, hl, hs]
        | ok payload =>
            cases hr : env.rpc .vote c.rpc_client payload with
            | error st => simp [RaftRouter.vote, hl, hs, hr]
            | ok resp =>
                cases hd : env.deser resp <;> simp [RaftRouter.vote, hl, hs, hr, hd]
  refine ⟨hae, his, hv, ?_, ?_⟩
  · intro c hc
    rw [hae]
    exact hc
  · intro env2 req2 c payload resp r2 hc h1 h2 h3
    rw [hae]
    simp [RaftRouter.append_entries, hc, h1, h2, h3]

/-- C6 witness: against the registered peer 5, a severed-connection call
returns an Rpc-style error, the entry survives unchanged, and a later
append_entries on peer 5 with a working network succeeds. -/
theorem c6_witness :
    (RaftRouter.append_entries (envRpcFail "connection reset") router1 5 1).result =
      .error (.msg "connection reset") ∧
    (RaftRouter.append_entries (envRpcFail "connection reset") router1 5 1).clients =
      router1.clients ∧
    (RaftRouter.append_entries envOk
        { clients := (RaftRouter.append_entries (envRpcFail "connection reset")
            router1 5 1).clients } 5 7).result = .ok 7 :=
  ⟨rfl,
    (c6_failed_rpc_preserves_registry (envRpcFail "connection reset") router1 5 1).1,
    (c6_failed_rpc_preserves_registry (envRpcFail "connection reset") router1 5 1).2.2.2.2
      envOk 7 { rpc_client := "http://10.0.0.1:9000", addr := "10.0.0.1:9000" } [7] [7] 7
      rfl rfl rfl rfl⟩

/-- C7: the codec round-trips: for every well-formed message of the eight
supported types (AppendEntries request/response, Vote request/response,
InstallSnapshot request/response, forwarded-write request/response),
deserializing the serialized bytes returns the original message. -/
theorem c7_codec_round_trip
    (m1 : AppendEntriesRequest) (m2 : AppendEntriesResponse) (m3 : VoteRequest)
    (m4 : VoteResponse) (m5 : InstallSnapshotRequest) (m6 : InstallSnapshotResponse)
    (m7 : ClientWriteRequest) (m8 : ClientResponse)
    (h1 : m1.wf = true) (h2 : m2.wf = true) (h3 : m3.wf = true) (h4 : m4.wf = true)
    (h5 : m5.wf = true) (h6 : m6.wf = true) (h7 : m7.wf = true) (h8 : m8.wf = true) :
    deserializeWith decAppendEntriesRequest (encAppendEntriesRequest m1) = .ok m1 ∧
    deserializeWith decAppendEntriesResponse (encAppendEntriesResponse m2) = .ok m2 ∧
    deserializeWith decVoteRequest (encVoteRequest m3) = .ok m3 ∧
    deserializeWith decVoteResponse (encVoteResponse m4) = .ok m4 ∧
    deserializeWith decInstallSnapshotRequest (encInstallSnapshotRequest m5) = .ok m5 ∧
    deserializeWith decInstallSnapshotResponse (encInstallSnapshotResponse m6) = .ok m6 ∧
    deserializeWith decClientWriteRequest (encClientWriteRequest m7) = .ok m7 ∧
    deserializeWith decClientResponse (encClientResponse m8) = .ok m8 :=
  ⟨deserializeWith_enc _ _ _ (decAppendEntriesRequest_enc m1 [] h1),
    deserializeWith_enc _ _ _ (decAppendEntriesResponse_enc m2 [] h2),
    deserializeWith_enc _ _ _ (decVoteRequest_enc m3 [] h3),
    deserializeWith_enc _ _ _ (decVoteResponse_enc m4 [] h4),
    deserializeWith_enc _ _ _ (decInstallSnapshotRequest_enc m5 [] h5),
    deserializeWith_enc _ _ _ (decInstallSnapshotResponse_enc m6 [] h6),
    deserializeWith_enc _ _ _ (decClientWriteRequest_enc m7 [] h7),
    deserializeWith_enc _ _ _ (decClientResponse_enc m8 [] h8)⟩

/-- C7 witness: the round trip evaluated on concrete messages, including an
AppendEntries request carrying entries of all four payload variants. -/
theorem c7_witness :
    (aeReqEx.wf = true ∧ aeRespEx.wf = true ∧ voteReqEx.wf = true ∧ voteRespEx.wf = true ∧
      isReqEx.wf = true ∧ isRespEx.wf = true ∧ cwReqEx.wf = true ∧ cRespEx.wf = true) ∧
    deserializeWith decAppendEntriesRequest (encAppendEntriesRequest aeReqEx) = .ok aeReqEx ∧
    deserializeWith decVoteRequest (encVoteRequest voteReqEx) = .ok voteReqEx ∧
    deserializeWith decInstallSnapshotRequest (encInstallSnapshotRequest isReqEx) =
      .ok isReqEx ∧
    deserializeWith decClientWriteRequest (encClientWriteRequest cwReqEx) = .ok cwReqEx :=
  ⟨⟨by decide, by decide, by decide, by decide, by decide, by decide, by decide, by decide⟩,
    (c7_codec_round_trip aeReqEx aeRespEx voteReqEx voteRespEx isReqEx isRespEx cwReqEx cRespEx
      (by decide) (by decide) (by decide) (by decide) (by decide) (by decide) (by decide)
      (by decide)).1,
    (c7_codec_round_trip aeReqEx aeRespEx voteReqEx voteRespEx isReqEx isRespEx cwReqEx cRespEx
      (by decide) (by decide) (by decide) (by decide) (by decide) (by decide) (by decide)
      (by decide)).2.2.1,
    (c7_codec_round_trip aeReqEx aeRespEx voteReqEx voteRespEx isReqEx isRespEx cwReqEx cRespEx
      (by decide) (by decide) (by decide) (by decide) (by decide) (by decide) (by decide)
      (by decide)).2.2.2.2.1,
    (c7_codec_round_trip aeReqEx aeRespEx voteReqEx voteRespEx isReqEx isRespEx cwReqEx cRespEx
      (by decide) (by decide) (by decide) (by decide) (by decide) (by decide) (by decide)
      (by decide)).2.2.2.2.2.2.1⟩

/-- C8 counterexample: at a concrete input the successful run of vote
produces the trace [encode, lock, rpc, decode], in which the encode event
strictly precedes the lock acquisition, and when serialization fails the
trace is exactly [encode] with no lock-acquisition event at all — refuting
the claim that the lock is acquired before encoding and that an encoding
failure occurs while holding the lock. -/
theorem c8_counterexample :
    (RaftRouter.vote envOk router1 5 1).trace =
      [.encode, .lockAcquire 5, .rpcCall .vote "http://10.0.0.1:9000", .decode] ∧
    (RaftRouter.vote envOk router1 5 1).trace.indexOf Event.encode <
      (RaftRouter.vote envOk router1 5 1).trace.indexOf (Event.lockAcquire 5) ∧
    (RaftRouter.vote envSerFail router1 5 1).trace = [.encode] ∧
    (RaftRouter.vote envSerFail router1 5 1).trace.countP Event.isLockAcquire = 0 :=
  ⟨rfl, by decide, rfl, rfl⟩

/-- C8 amended: in each call operation on a registered target the request is
encoded *before* the peer's lock is acquired: on encoding success the trace
begins with encode and then the lock acquisition, and on encoding failure
the trace is exactly [encode] — the lock is never acquired, so an encoding
failure occurs without holding the peer's lock. -/
theorem c8_encode_before_lock {Req Resp : Type} (env : CallEnv Req Resp)
    (self : RaftRouter) (target : NodeId) (req : Req) (c : Client)
    (h : lookupClient self.clients target = some c) :
    (∀ payload, env.ser req = .ok payload →
      (RaftRouter.append_entries env self target req).trace.take 2 =
          [.encode, .lockAcquire target] ∧
        (RaftRouter.install_snapshot env self target req).trace.take 2 =
          [.encode, .lockAcquire target] ∧
        (RaftRouter.vote env self target req).trace.take 2 =
          [.encode, .lockAcquire target]) ∧
    (∀ e, env.ser req = .error e →
      (RaftRouter.append_entries env self target req).trace = [.encode] ∧
        (RaftRouter.install_snapshot env self target req).trace = [.encode] ∧
        (RaftRouter.vote env self target req).trace = [.encode]) := by
  constructor
  · intro payload hs
    refine ⟨?_, ?_, ?_⟩
    · cases hr : env.rpc .appendEntries c.rpc_client payload with
      | error st => simp [RaftRouter.append_entries, h, hs, hr]
      | ok resp =>
          cases hd : env.deser resp <;> simp [RaftRouter.append_entries, h, hs, hr, hd]
    · cases hr : env.rpc .installSnapshot c.rpc_client payload with
      | error st => simp [RaftRouter.install_snapshot, h, hs, hr]
      | ok resp =>
          cases hd : env.deser resp <;> simp [RaftRouter.install_snapshot, h, hs, hr, hd]
    · cases hr : env.rpc .vote c.rpc_client payload with
      | error st => simp [RaftRouter.vote, h, hs, hr]
      | ok resp =>
          cases hd : env.deser resp <;> simp [RaftRouter.vote, h, hs, hr, hd]
  · intro e hs
    exact ⟨by simp [RaftRouter.append_entries, h, hs],
      by simp [RaftRouter.install_snapshot, h, hs], by simp [RaftRouter.vote, h, hs]⟩

/-- C8 amended witness: the amended order statement evaluated against the
registered peer 5, in both the encoding-success and encoding-failure
cases. -/
theorem c8_witness :
    lookupClient router1.clients 5 =
      some { rpc_client := "http://10.0.0.1:9000", addr := "10.0.0.1:9000" } ∧
    (RaftRouter.vote envOk router1 5 1).trace.take 2 = [.encode, .lockAcquire 5] ∧
    (RaftRouter.vote envSerFail router1 5 1).trace = [.encode] :=
  ⟨rfl,
    ((c8_encode_before_lock envOk router1 5 1
      { rpc_client := "http://10.0.0.1:9000", addr := "10.0.0.1:9000" } rfl).1
      [1] rfl).2.2,
    ((c8_encode_before_lock envSerFail router1 5 1
      { rpc_client := "http://10.0.0.1:9000", addr := "10.0.0.1:9000" } rfl).2
      { str := "ser boom" } rfl).2.2⟩

/-- C10: the three registry call operations are one function modulo the RPC
method tag and the logging flag: each equals the shared callOp wrapper (with
append_entries and install_snapshot not logging and vote logging), and on
the RPC-failure path vote's trace contains exactly one log event while
append_entries' contains none. -/
theorem c10_three_ops_equal_modulo_method {Req Resp : Type} (env : CallEnv Req Resp)
    (self : RaftRouter) (target : NodeId) (req : Req) :
    RaftRouter.append_entries env self target req =
        callOp .appendEntries false env self target req ∧
    RaftRouter.install_snapshot env self target req =
        callOp .installSnapshot false env self target req ∧
    RaftRouter.vote env self target req = callOp .vote true env self target req ∧
    (∀ c payload st, lookupClient self.clients target = some c → env.ser req = .ok payload →
      env.rpc .vote c.rpc_client payload = .error st →
      (RaftRouter.vote env self target req).trace.countP Event.isLogError = 1) ∧
    (∀ c payload st, lookupClient self.clients target = some c → env.ser req = .ok payload →
      env.rpc .appendEntries c.rpc_client payload = .error st →
      (RaftRouter.append_entries env self target req).trace.countP Event.isLogError = 0) := by
  refine ⟨?_, ?_, ?_, ?_, ?_⟩
  · cases hl : lookupClient self.clients target with
    | none => simp [RaftRouter.append_entries, callOp, hl]
    | some c =>
        cases hs : env.ser req with
        | error e => simp [RaftRouter.append_entries, callOp, hl, hs]
        | ok payload =>
            cases hr : env.rpc .appendEntries c.rpc_client payload with
            | error st => simp [RaftRouter.append_entries, callOp, hl, hs, hr]
            | ok resp =>
                cases hd : env.deser resp <;>
                  simp [RaftRouter.append_entries, callOp, hl, hs, hr, hd]
  · cases hl : lookupClient self.clients target with
    | none => simp [RaftRouter.install_snapshot, callOp, hl]
    | some c =>
        cases hs : env.ser req with
        | error e => simp [RaftRouter.install_snapshot, callOp, hl, hs]
        | ok payload =>
            cases hr : env.rpc .installSnapshot c.rpc_client payload with
            | error st => simp [RaftRouter.install_snapshot, callOp, hl, hs, hr]
            | ok resp =>
                cases hd : env.deser resp <;>
                  simp [RaftRouter.install_snapshot, callOp, hl, hs, hr, hd]
  · cases hl : lookupClient self.clients target with
    | none => simp [RaftRouter.vote, callOp, hl]
    | some c =>
        cases hs : env.ser req with
        | error e => simp [RaftRouter.vote, callOp, hl, hs]
        | ok payload =>
            cases hr : env.rpc .vote c.rpc_client payload with
            | error st => simp [RaftRouter.vote, callOp, hl, hs, hr]
            | ok resp =>
                cases hd : env.deser resp <;> simp [RaftRouter.vote, callOp, hl, hs, hr, hd]
  · intro c payload st h1 h2 h3
    simp [RaftRouter.vote, h1, h2, h3, List.countP_cons, Event.isLogError]
  · intro c payload st h1 h2 h3
    simp [RaftRouter.append_entries, h1, h2, h3, List.countP_cons, Event.isLogError]

/-- C10 witness: against the registered peer 5 with a failing network, vote
logs exactly once and append_entries logs nothing; and the equality with
the shared wrapper evaluated at that input. -/
theorem c10_witness :
    RaftRouter.vote (envRpcFail "unreachable") router1 5 1 =
      callOp .vote true (envRpcFail "unreachable") router1 5 1 ∧
    (RaftRouter.vote (envRpcFail "unreachable") router1 5 1).trace.countP
      Event.isLogError = 1 ∧
    (RaftRouter.append_entries (envRpcFail "unreachable") router1 5 1).trace.countP
      Event.isLogError = 0 :=
  ⟨(c10_three_ops_equal_modulo_method (envRpcFail "unreachable") router1 5 1).2.2.1,
    (c10_three_ops_equal_modulo_method (envRpcFail "unreachable") router1 5 1).2.2.2.1
      { rpc_client := "http://10.0.0.1:9000", addr := "10.0.0.1:9000" } [1]
      { str := "unreachable" } rfl rfl rfl,
    (c10_three_ops_equal_modulo_method (envRpcFail "unreachable") router1 5 1).2.2.2.2
      { rpc_client := "http://10.0.0.1:9000", addr := "10.0.0.1:9000" } [1]
      { str := "unreachable" } rfl rfl rfl⟩

end RaftTransport
